import Mathlib

/-!
Shallow embedding of the DingTalk streaming-card delivery engine of
`src/nanobot/channels/dingtalk.py`.

Remote HTTP effects are modelled by an oracle `Env` that yields the outcome
of each remote interaction and the generated UUIDs, indexed by an
interaction counter threaded through the channel state.  Every operation
takes the explicit `ChannelState` and returns the list of remote requests
it issued (`Event`s) alongside the updated state, mirroring the Python
methods line by line.
-/

namespace DingTalk

/-- One remote request issued by the channel (the request as sent; outcomes
come from `Env`), plus the local effects observable at the boundary
(forwarding to the bus, closing the HTTP client, cancelling a task). -/
inductive Event where
  | tokenExchange (appKey appSecret : String)
  | createCard (outTrackId openSpaceId : String) (group : Bool)
  | putData (outTrackId flowStatus content : String)
  | streaming (outTrackId guid content : String) (isFinalize : Bool)
  | sendTextCall (userId content : String)
  | finishAttempt (outTrackId : String)
  | handleMessage (senderId chatId content : String)
  | closeHttp
  | cancelTask (t : Nat)
  deriving DecidableEq, Repr

/-- `_ActiveCard` (dingtalk.py lines 46-53). -/
structure _ActiveCard where
  card_instance_id : String
  accumulated_content : String := ""
  inputing_started : Bool := false
  created_at : Int
  deriving DecidableEq, Repr

/-- The fields of `DingTalkConfig` the channel reads. -/
structure DingTalkConfig where
  reply_mode : String
  client_id : String
  client_secret : String
  deriving DecidableEq, Repr

/-- Parsed JSON body of an HTTP-200 token-exchange response:
`accessToken` may be absent (`res_data.get("accessToken")` is `None`);
`expireIn` carries the source's default 7200 already applied. -/
structure TokenResp where
  accessToken : Option String
  expireIn : Int
  deriving DecidableEq, Repr

/-- Oracle for remote interactions, indexed by the state's counter `ctr`:
* `tokenResp n`: `some r` = HTTP 200 with parsed body `r`; `none` = the
  non-200 / transport-exception branch of `_get_access_token`.
* `createOk n`: whether `createAndDeliver` returns HTTP 200 (`false` =
  non-200 or exception).
* `callOutcome n`: outcome of the remaining calls (card-data update,
  streaming, text send); the source only logs these, so the model records
  but never reads them.
* `uuid n`: the hex of the `uuid.uuid4()` drawn at step `n`.
* `stopFinishExc n`: whether the awaited `_card_finish` inside `stop`'s
  `try` raises (an arbitrary runtime exception at that await, caught and
  logged by `stop`). -/
structure Env where
  tokenResp : Nat → Option TokenResp
  createOk : Nat → Bool
  callOutcome : Nat → Bool
  uuid : Nat → String
  stopFinishExc : Nat → Bool

/-- The mutable state of `DingTalkChannel` (dingtalk.py lines 153-167). -/
structure ChannelState where
  running : Bool
  httpOpen : Bool
  access_token : Option String
  token_expiry : Int
  active_cards : List (String × _ActiveCard)
  background_tasks : List Nat
  ctr : Nat

/-- Python dict lookup `self._active_cards.get(chat_id)`. -/
def lookupCard : List (String × _ActiveCard) → String → Option _ActiveCard
  | [], _ => none
  | (k, c) :: rest, key => if k = key then some c else lookupCard rest key

/-- The mapping after `self._active_cards.pop(chat_id, None)`. -/
def removeCard (m : List (String × _ActiveCard)) (key : String) :
    List (String × _ActiveCard) :=
  m.filter (fun kv => kv.1 != key)

/-- The mapping after `self._active_cards[chat_id] = card`. -/
def setCard (m : List (String × _ActiveCard)) (key : String) (c : _ActiveCard) :
    List (String × _ActiveCard) :=
  (key, c) :: removeCard m key

/-- Python truthiness of an optional string (`None` and `""` are falsy). -/
def strTruthy : Option String → Bool
  | none => false
  | some s => s != ""

/-- The fields of an `OutboundMessage` the channel reads; the metadata
entries are inlined, with `""` standing for an absent routing field
(matching `metadata.get(..., "")`) and `progress` the truthiness of
`metadata.get("_progress")`. -/
structure OutboundMessage where
  chat_id : String
  content : String
  progress : Bool
  conversation_type : String
  conversation_id : String := ""
  sender_staff_id : String := ""
  deriving DecidableEq, Repr

/-- `_get_access_token` (dingtalk.py lines 230-255): cached token if
truthy and unexpired; otherwise, with an open HTTP client, one token
exchange whose success overwrites token and expiry (60s early) and whose
failure leaves both untouched. -/
def _get_access_token (cfg : DingTalkConfig) (env : Env) (now : Int)
    (s : ChannelState) : Option String × ChannelState × List Event :=
  if strTruthy s.access_token ∧ now < s.token_expiry then
    (s.access_token, s, [])
  else if s.httpOpen then
    match env.tokenResp s.ctr with
    | some r =>
        (r.accessToken,
         { s with access_token := r.accessToken,
                  token_expiry := now + r.expireIn - 60,
                  ctr := s.ctr + 1 },
         [Event.tokenExchange cfg.client_id cfg.client_secret])
    | none =>
        (none, { s with ctr := s.ctr + 1 },
         [Event.tokenExchange cfg.client_id cfg.client_secret])
  else
    (none, s, [])

/-- `_send_text` (dingtalk.py lines 271-306): group chats are skipped with
a warning and no HTTP call; otherwise one `batchSend` call is issued when
a token is obtained and the client is open. -/
def _send_text (cfg : DingTalkConfig) (env : Env) (now : Int)
    (msg : OutboundMessage) (s : ChannelState) : ChannelState × List Event :=
  if msg.conversation_type = "2" then
    (s, [])
  else
    let r := _get_access_token cfg env now s
    if strTruthy r.1 ∧ r.2.1.httpOpen then
      (r.2.1, r.2.2 ++ [Event.sendTextCall msg.chat_id msg.content])
    else (r.2.1, r.2.2)

/-- `_build_open_space_id` (dingtalk.py lines 358-367). -/
def _build_open_space_id (msg : OutboundMessage) : String :=
  if msg.conversation_type = "2" then
    "dtv1.card//IM_GROUP." ++ msg.conversation_id
  else
    "dtv1.card//IM_ROBOT." ++ msg.sender_staff_id

/-- `_card_create` (dingtalk.py lines 369-408): returns a fresh card on
HTTP 200, `none` on missing token, missing client, non-200 or exception. -/
def _card_create (cfg : DingTalkConfig) (env : Env) (now : Int)
    (msg : OutboundMessage) (s : ChannelState) :
    Option _ActiveCard × ChannelState × List Event :=
  let r := _get_access_token cfg env now s
  let s1 := r.2.1
  if strTruthy r.1 ∧ s1.httpOpen then
    let cid := "card_" ++ env.uuid s1.ctr
    let ok := env.createOk s1.ctr
    let s2 := { s1 with ctr := s1.ctr + 1 }
    let ev := r.2.2 ++
      [Event.createCard cid (_build_open_space_id msg) (msg.conversation_type == "2")]
    if ok then (some { card_instance_id := cid, created_at := now }, s2, ev)
    else (none, s2, ev)
  else (none, s1, r.2.2)

/-- `_card_put_data` (dingtalk.py lines 410-438): one card-data update
call when a token is obtained and the client is open; its outcome is only
logged. -/
def _card_put_data (cfg : DingTalkConfig) (env : Env) (now : Int)
    (card : _ActiveCard) (flow_status content : String) (s : ChannelState) :
    ChannelState × List Event :=
  let r := _get_access_token cfg env now s
  if strTruthy r.1 ∧ r.2.1.httpOpen then
    (r.2.1, r.2.2 ++ [Event.putData card.card_instance_id flow_status content])
  else (r.2.1, r.2.2)

/-- `_card_ensure_inputing` (dingtalk.py lines 440-445): no-op once
`inputing_started`; otherwise one announce attempt, after which the flag
is set unconditionally. -/
def _card_ensure_inputing (cfg : DingTalkConfig) (env : Env) (now : Int)
    (card : _ActiveCard) (s : ChannelState) :
    _ActiveCard × ChannelState × List Event :=
  if card.inputing_started then (card, s, [])
  else
    let r := _card_put_data cfg env now card "2" "" s
    ({ card with inputing_started := true }, r.1, r.2)

/-- `_card_stream` (dingtalk.py lines 447-476): ensure INPUTING first,
then one streaming call (fresh guid) when a token is obtained and the
client is open. -/
def _card_stream (cfg : DingTalkConfig) (env : Env) (now : Int)
    (card : _ActiveCard) (content : String) (is_finalize : Bool)
    (s : ChannelState) : _ActiveCard × ChannelState × List Event :=
  let e := _card_ensure_inputing cfg env now card s
  let r := _get_access_token cfg env now e.2.1
  if strTruthy r.1 ∧ r.2.1.httpOpen then
    (e.1, { r.2.1 with ctr := r.2.1.ctr + 1 },
     e.2.2 ++ r.2.2 ++
       [Event.streaming e.1.card_instance_id (env.uuid r.2.1.ctr) content is_finalize])
  else (e.1, r.2.1, e.2.2 ++ r.2.2)

/-- `_card_finish` (dingtalk.py lines 478-484): stream with
`isFinalize=true` carrying the accumulated content (or the placeholder
`"..."` when it is empty), then the FINISHED card-data update with the
same content. -/
def _card_finish (cfg : DingTalkConfig) (env : Env) (now : Int)
    (card : _ActiveCard) (s : ChannelState) :
    _ActiveCard × ChannelState × List Event :=
  let content := if card.accumulated_content = "" then "..." else card.accumulated_content
  let f := _card_stream cfg env now card content true s
  let p := _card_put_data cfg env now f.1 "3" content f.2.1
  (f.1, p.1, f.2.2 ++ p.2)

/-- The TTL-eviction block of `_send_ai_card` (dingtalk.py lines 315-324):
returns the surviving card (if any) together with the state and the
requests issued while evicting. -/
def evictStale (cfg : DingTalkConfig) (env : Env) (now : Int)
    (chat_id : String) (s : ChannelState) :
    Option _ActiveCard × ChannelState × List Event :=
  match lookupCard s.active_cards chat_id with
  | none => (none, s, [])
  | some c =>
      if now - c.created_at > 600 then
        let f := _card_finish cfg env now c s
        (none, { f.2.1 with active_cards := removeCard f.2.1.active_cards chat_id },
         f.2.2)
      else (some c, s, [])

/-- The body of `_send_ai_card` after TTL eviction (dingtalk.py lines
326-352), taking the surviving card.  Python mutates the registry-aliased
card object in place; the model writes the updated card back to the
registry at each mutation point, which is observationally identical in
this sequential embedding. -/
def sendAiCardBody (cfg : DingTalkConfig) (env : Env) (now : Int)
    (msg : OutboundMessage) (cardOpt : Option _ActiveCard) (s : ChannelState) :
    ChannelState × List Event :=
  match msg.progress, cardOpt with
  | true, some c =>
      let c1 := { c with accumulated_content := c.accumulated_content ++ msg.content ++ "\n\n" }
      let s1 := { s with active_cards := setCard s.active_cards msg.chat_id c1 }
      let r := _card_stream cfg env now c1 c1.accumulated_content false s1
      ({ r.2.1 with active_cards := setCard r.2.1.active_cards msg.chat_id r.1 }, r.2.2)
  | true, none =>
      let cr := _card_create cfg env now msg s
      match cr.1 with
      | none =>
          let t := _send_text cfg env now msg cr.2.1
          (t.1, cr.2.2 ++ t.2)
      | some c =>
          let c1 := { c with accumulated_content := c.accumulated_content ++ msg.content ++ "\n\n" }
          let s1 := { cr.2.1 with active_cards := setCard cr.2.1.active_cards msg.chat_id c1 }
          let r := _card_stream cfg env now c1 c1.accumulated_content false s1
          ({ r.2.1 with active_cards := setCard r.2.1.active_cards msg.chat_id r.1 },
           cr.2.2 ++ r.2.2)
  | false, some c =>
      let c1 := { c with accumulated_content := c.accumulated_content ++ msg.content }
      let f := _card_finish cfg env now c1 s
      ({ f.2.1 with active_cards := removeCard f.2.1.active_cards msg.chat_id }, f.2.2)
  | false, none =>
      let cr := _card_create cfg env now msg s
      match cr.1 with
      | none =>
          let t := _send_text cfg env now msg cr.2.1
          (t.1, cr.2.2 ++ t.2)
      | some c =>
          let c1 := { c with accumulated_content := msg.content }
          let f := _card_finish cfg env now c1 cr.2.1
          (f.2.1, cr.2.2 ++ f.2.2)

/-- `_send_ai_card` (dingtalk.py lines 310-352). -/
def _send_ai_card (cfg : DingTalkConfig) (env : Env) (now : Int)
    (msg : OutboundMessage) (s : ChannelState) : ChannelState × List Event :=
  let e := evictStale cfg env now msg.chat_id s
  let b := sendAiCardBody cfg env now msg e.1 e.2.1
  (b.1, e.2.2 ++ b.2)

/-- `send` (dingtalk.py lines 259-267). -/
def send (cfg : DingTalkConfig) (env : Env) (now : Int)
    (msg : OutboundMessage) (s : ChannelState) : ChannelState × List Event :=
  if cfg.reply_mode = "ai_card" ∧ msg.conversation_type ≠ "" then
    _send_ai_card cfg env now msg s
  else
    _send_text cfg env now msg s

/-- Modelled from the spec: `BaseChannel._handle_message` is not among the
source files; per the spec's boundary (§6) it performs the permission
check and forwards the inbound message to the bus.  Modelled as the
emission of one forward event. -/
def _handle_message (sender_id chat_id content : String) (s : ChannelState) :
    ChannelState × List Event :=
  (s, [Event.handleMessage sender_id chat_id content])

/-- `resolved_chat_id = chat_id or sender_id` (dingtalk.py line 502):
Python `or` falls through on `None` and on the empty string. -/
def resolvedChatId (chat_id : Option String) (sender_id : String) : String :=
  match chat_id with
  | some c => if c = "" then sender_id else c
  | none => sender_id

/-- `_on_message` (dingtalk.py lines 488-524): pop any open card for the
resolved chat key and finish it (best effort) before forwarding the
inbound message via `_handle_message`. -/
def _on_message (cfg : DingTalkConfig) (env : Env) (now : Int)
    (content sender_id : String) (chat_id : Option String) (s : ChannelState) :
    ChannelState × List Event :=
  let resolved := resolvedChatId chat_id sender_id
  match lookupCard s.active_cards resolved with
  | some old =>
      let s1 := { s with active_cards := removeCard s.active_cards resolved }
      let f := _card_finish cfg env now old s1
      let h := _handle_message sender_id resolved content f.2.1
      (h.1, f.2.2 ++ h.2)
  | none =>
      let h := _handle_message sender_id resolved content s
      (h.1, h.2)

/-- The per-card finalize loop of `stop` (dingtalk.py lines 215-219):
each iteration records the attempt, then the awaited `_card_finish`
either raises (oracle `stopFinishExc`; the exception is caught and
logged) or runs to completion. -/
def stopLoop (cfg : DingTalkConfig) (env : Env) (now : Int) :
    List (String × _ActiveCard) → ChannelState → ChannelState × List Event
  | [], s => (s, [])
  | (_, c) :: rest, s =>
      let step :=
        if env.stopFinishExc s.ctr then ({ s with ctr := s.ctr + 1 }, ([] : List Event))
        else
          let f := _card_finish cfg env now c { s with ctr := s.ctr + 1 }
          (f.2.1, f.2.2)
      let r := stopLoop cfg env now rest step.1
      (r.1, Event.finishAttempt c.card_instance_id :: (step.2 ++ r.2))

/-- `stop` (dingtalk.py lines 211-228): finish every registered card
best-effort, clear the registry, close and release the HTTP client,
cancel and clear the background tasks. -/
def stop (cfg : DingTalkConfig) (env : Env) (now : Int) (s : ChannelState) :
    ChannelState × List Event :=
  let l := stopLoop cfg env now s.active_cards { s with running := false }
  let s1 := { l.1 with active_cards := [] }
  let c :=
    if s1.httpOpen then ({ s1 with httpOpen := false }, [Event.closeHttp])
    else (s1, ([] : List Event))
  let ev3 := c.1.background_tasks.map Event.cancelTask
  ({ c.1 with background_tasks := [] }, l.2 ++ c.2 ++ ev3)

/-- Property harness: a sequence of `_card_stream` invocations on one
card ((content, isFinalize) pairs), threading card and state. -/
def streamMany (cfg : DingTalkConfig) (env : Env) (now : Int) :
    _ActiveCard → List (String × Bool) → ChannelState →
    _ActiveCard × ChannelState × List Event
  | card, [], s => (card, s, [])
  | card, (content, fin) :: rest, s =>
      let r := _card_stream cfg env now card content fin s
      let m := streamMany cfg env now r.1 rest r.2.1
      (m.1, m.2.1, r.2.2 ++ m.2.2)

/-- The announce request of card `cid`: a card-data update with
flowStatus `"2"`. -/
def isAnnounce (cid : String) : Event → Bool
  | Event.putData t fs _ => t == cid && fs == "2"
  | _ => false

/-- The card id a streaming request targets, `none` for any other event. -/
def streamTrack : Event → Option String
  | Event.streaming t _ _ _ => some t
  | _ => none

/-- Whether an event is the plain-text `batchSend` call. -/
def isTextSend : Event → Bool
  | Event.sendTextCall _ _ => true
  | _ => false

/-- The cached token is usable: Python-truthy and unexpired. -/
def tokenValid (now : Int) (s : ChannelState) : Prop :=
  strTruthy s.access_token = true ∧ now < s.token_expiry

/-! ### Registry lemmas -/

theorem removeCard_cons (kv : String × _ActiveCard)
    (rest : List (String × _ActiveCard)) (k : String) :
    removeCard (kv :: rest) k =
      if kv.1 = k then removeCard rest k else kv :: removeCard rest k := by
  by_cases h : kv.1 = k <;> simp [removeCard, List.filter_cons, h]

theorem lookup_setCard_self (m : List (String × _ActiveCard)) (k : String)
    (c : _ActiveCard) : lookupCard (setCard m k c) k = some c := by
  simp [setCard, lookupCard]

theorem lookup_removeCard_self (m : List (String × _ActiveCard)) (k : String) :
    lookupCard (removeCard m k) k = none := by
  induction m with
  | nil => simp [removeCard, lookupCard]
  | cons kv rest ih =>
      obtain ⟨k1, c1⟩ := kv
      rw [removeCard_cons]
      by_cases h : k1 = k
      · simpa [h] using ih
      · simpa [lookupCard, h] using ih

/-! ### Characterization of `_get_access_token` -/

section Token

variable (cfg : DingTalkConfig) (env : Env) (now : Int) (s : ChannelState)

theorem gat_cached (h : tokenValid now s) :
    _get_access_token cfg env now s = (s.access_token, s, []) := by
  unfold _get_access_token
  rw [if_pos ⟨h.1, h.2⟩]

theorem gat_trace :
    (_get_access_token cfg env now s).2.2 = [] ∨
    (_get_access_token cfg env now s).2.2 =
      [Event.tokenExchange cfg.client_id cfg.client_secret] := by
  unfold _get_access_token
  split
  · exact Or.inl rfl
  split
  · split <;> exact Or.inr rfl
  · exact Or.inl rfl

theorem gat_cards :
    (_get_access_token cfg env now s).2.1.active_cards = s.active_cards := by
  unfold _get_access_token
  split
  · rfl
  split
  · split <;> rfl
  · rfl

theorem gat_http :
    (_get_access_token cfg env now s).2.1.httpOpen = s.httpOpen := by
  unfold _get_access_token
  split
  · rfl
  split
  · split <;> rfl
  · rfl

end Token

/-! ### Characterization of the card helpers under a usable cached token -/

section Helpers

variable (cfg : DingTalkConfig) (env : Env) (now : Int)

theorem put_data_ok (card : _ActiveCard) (fs content : String) (s : ChannelState)
    (hv : tokenValid now s) (hh : s.httpOpen = true) :
    _card_put_data cfg env now card fs content s =
      (s, [Event.putData card.card_instance_id fs content]) := by
  unfold _card_put_data
  rw [gat_cached cfg env now s hv]
  simp [hv.1, hh]

theorem ensure_ok (card : _ActiveCard) (s : ChannelState)
    (hv : tokenValid now s) (hh : s.httpOpen = true) :
    _card_ensure_inputing cfg env now card s =
      ({ card with inputing_started := true }, s,
       if card.inputing_started then []
       else [Event.putData card.card_instance_id "2" ""]) := by
  unfold _card_ensure_inputing
  cases hc : card.inputing_started with
  | true =>
      cases card
      simp_all
  | false =>
      rw [if_neg (by simp [hc])]
      rw [put_data_ok cfg env now _ _ _ _ hv hh]
      simp [hc]

theorem stream_ok (card : _ActiveCard) (content : String) (fin : Bool)
    (s : ChannelState) (hv : tokenValid now s) (hh : s.httpOpen = true) :
    _card_stream cfg env now card content fin s =
      ({ card with inputing_started := true }, { s with ctr := s.ctr + 1 },
       (if card.inputing_started then []
        else [Event.putData card.card_instance_id "2" ""]) ++
       [Event.streaming card.card_instance_id (env.uuid s.ctr) content fin]) := by
  unfold _card_stream
  rw [ensure_ok cfg env now card s hv hh]
  simp only [gat_cached cfg env now s hv]
  simp [hv.1, hh]

theorem finish_ok (card : _ActiveCard) (s : ChannelState)
    (hv : tokenValid now s) (hh : s.httpOpen = true) :
    _card_finish cfg env now card s =
      ({ card with inputing_started := true }, { s with ctr := s.ctr + 1 },
       (if card.inputing_started then []
        else [Event.putData card.card_instance_id "2" ""]) ++
       [Event.streaming card.card_instance_id (env.uuid s.ctr)
          (if card.accumulated_content = "" then "..." else card.accumulated_content)
          true,
        Event.putData card.card_instance_id "3"
          (if card.accumulated_content = "" then "..." else card.accumulated_content)]) := by
  unfold _card_finish
  simp only [stream_ok cfg env now card
    (if card.accumulated_content = "" then "..." else card.accumulated_content) true s hv hh]
  rw [put_data_ok cfg env now { card with inputing_started := true } "3"
    (if card.accumulated_content = "" then "..." else card.accumulated_content)
    { s with ctr := s.ctr + 1 } ⟨hv.1, hv.2⟩ hh]
  simp

end Helpers

/-! ### The outcomes of card-update, streaming and text-send calls are
recorded but never read: every operation is invariant under changing
`callOutcome`. -/

section CallOutcome

variable (cfg : DingTalkConfig) (env : Env) (now : Int) (g : Nat → Bool)

theorem gat_co (s : ChannelState) :
    _get_access_token cfg { env with callOutcome := g } now s =
      _get_access_token cfg env now s := by
  unfold _get_access_token
  rfl

theorem put_co (card : _ActiveCard) (fs content : String) (s : ChannelState) :
    _card_put_data cfg { env with callOutcome := g } now card fs content s =
      _card_put_data cfg env now card fs content s := by
  unfold _card_put_data
  rw [gat_co]

theorem ensure_co (card : _ActiveCard) (s : ChannelState) :
    _card_ensure_inputing cfg { env with callOutcome := g } now card s =
      _card_ensure_inputing cfg env now card s := by
  unfold _card_ensure_inputing
  rw [put_co]

theorem stream_co (card : _ActiveCard) (content : String) (fin : Bool)
    (s : ChannelState) :
    _card_stream cfg { env with callOutcome := g } now card content fin s =
      _card_stream cfg env now card content fin s := by
  unfold _card_stream
  simp only [ensure_co, gat_co]

theorem finish_co (card : _ActiveCard) (s : ChannelState) :
    _card_finish cfg { env with callOutcome := g } now card s =
      _card_finish cfg env now card s := by
  unfold _card_finish
  simp only [stream_co, put_co]

theorem create_co (msg : OutboundMessage) (s : ChannelState) :
    _card_create cfg { env with callOutcome := g } now msg s =
      _card_create cfg env now msg s := by
  unfold _card_create
  simp only [gat_co]

theorem text_co (msg : OutboundMessage) (s : ChannelState) :
    _send_text cfg { env with callOutcome := g } now msg s =
      _send_text cfg env now msg s := by
  unfold _send_text
  simp only [gat_co]

theorem evict_co (chat : String) (s : ChannelState) :
    evictStale cfg { env with callOutcome := g } now chat s =
      evictStale cfg env now chat s := by
  unfold evictStale
  simp only [finish_co]

theorem body_co (msg : OutboundMessage) (cardOpt : Option _ActiveCard)
    (s : ChannelState) :
    sendAiCardBody cfg { env with callOutcome := g } now msg cardOpt s =
      sendAiCardBody cfg env now msg cardOpt s := by
  unfold sendAiCardBody
  simp only [create_co, stream_co, finish_co, text_co]

theorem sendAiCard_co (msg : OutboundMessage) (s : ChannelState) :
    _send_ai_card cfg { env with callOutcome := g } now msg s =
      _send_ai_card cfg env now msg s := by
  unfold _send_ai_card
  simp only [evict_co, body_co]

end CallOutcome

/-! ### State-component preservation -/

section Preservation

variable (cfg : DingTalkConfig) (env : Env) (now : Int)

theorem gat_tasks (s : ChannelState) :
    (_get_access_token cfg env now s).2.1.background_tasks = s.background_tasks := by
  unfold _get_access_token
  split
  · rfl
  split
  · split <;> rfl
  · rfl

theorem put_cards (card : _ActiveCard) (fs content : String) (s : ChannelState) :
    (_card_put_data cfg env now card fs content s).1.active_cards = s.active_cards := by
  simp only [_card_put_data]
  split <;> simp [gat_cards]

theorem put_http (card : _ActiveCard) (fs content : String) (s : ChannelState) :
    (_card_put_data cfg env now card fs content s).1.httpOpen = s.httpOpen := by
  simp only [_card_put_data]
  split <;> simp [gat_http]

theorem put_tasks (card : _ActiveCard) (fs content : String) (s : ChannelState) :
    (_card_put_data cfg env now card fs content s).1.background_tasks =
      s.background_tasks := by
  simp only [_card_put_data]
  split <;> simp [gat_tasks]

theorem ensure_cards (card : _ActiveCard) (s : ChannelState) :
    (_card_ensure_inputing cfg env now card s).2.1.active_cards = s.active_cards := by
  simp only [_card_ensure_inputing]
  split <;> simp [put_cards]

theorem ensure_http (card : _ActiveCard) (s : ChannelState) :
    (_card_ensure_inputing cfg env now card s).2.1.httpOpen = s.httpOpen := by
  simp only [_card_ensure_inputing]
  split <;> simp [put_http]

theorem ensure_tasks (card : _ActiveCard) (s : ChannelState) :
    (_card_ensure_inputing cfg env now card s).2.1.background_tasks =
      s.background_tasks := by
  simp only [_card_ensure_inputing]
  split <;> simp [put_tasks]

theorem stream_cards (card : _ActiveCard) (content : String) (fin : Bool)
    (s : ChannelState) :
    (_card_stream cfg env now card content fin s).2.1.active_cards =
      s.active_cards := by
  simp only [_card_stream]
  split <;> simp [gat_cards, ensure_cards]

theorem stream_http (card : _ActiveCard) (content : String) (fin : Bool)
    (s : ChannelState) :
    (_card_stream cfg env now card content fin s).2.1.httpOpen = s.httpOpen := by
  simp only [_card_stream]
  split <;> simp [gat_http, ensure_http]

theorem stream_tasks (card : _ActiveCard) (content : String) (fin : Bool)
    (s : ChannelState) :
    (_card_stream cfg env now card content fin s).2.1.background_tasks =
      s.background_tasks := by
  simp only [_card_stream]
  split <;> simp [gat_tasks, ensure_tasks]

theorem finish_cards (card : _ActiveCard) (s : ChannelState) :
    (_card_finish cfg env now card s).2.1.active_cards = s.active_cards := by
  simp only [_card_finish]
  simp [put_cards, stream_cards]

theorem finish_http (card : _ActiveCard) (s : ChannelState) :
    (_card_finish cfg env now card s).2.1.httpOpen = s.httpOpen := by
  simp only [_card_finish]
  simp [put_http, stream_http]

theorem finish_tasks (card : _ActiveCard) (s : ChannelState) :
    (_card_finish cfg env now card s).2.1.background_tasks = s.background_tasks := by
  simp only [_card_finish]
  simp [put_tasks, stream_tasks]

theorem create_cards (msg : OutboundMessage) (s : ChannelState) :
    (_card_create cfg env now msg s).2.1.active_cards = s.active_cards := by
  simp only [_card_create]
  split
  · split <;> simp [gat_cards]
  · simp [gat_cards]

theorem text_cards (msg : OutboundMessage) (s : ChannelState) :
    (_send_text cfg env now msg s).1.active_cards = s.active_cards := by
  simp only [_send_text]
  split
  · rfl
  split <;> simp [gat_cards]

end Preservation

/-! ### Classification of issued requests -/

section Classify

variable (cfg : DingTalkConfig) (env : Env) (now : Int)

theorem mem_gat (s : ChannelState) (e : Event)
    (he : e ∈ (_get_access_token cfg env now s).2.2) :
    e = Event.tokenExchange cfg.client_id cfg.client_secret := by
  rcases gat_trace cfg env now s with h | h <;> rw [h] at he
  · cases he
  · simpa using he

theorem mem_put (card : _ActiveCard) (fs content : String) (s : ChannelState)
    (e : Event) (he : e ∈ (_card_put_data cfg env now card fs content s).2) :
    e = Event.tokenExchange cfg.client_id cfg.client_secret ∨
    e = Event.putData card.card_instance_id fs content := by
  simp only [_card_put_data] at he
  split at he
  · simp only [List.mem_append] at he
    rcases he with he | he
    · exact Or.inl (mem_gat cfg env now s e he)
    · simpa using Or.inr (by simpa using he)
  · exact Or.inl (mem_gat cfg env now s e he)

theorem mem_ensure (card : _ActiveCard) (s : ChannelState) (e : Event)
    (he : e ∈ (_card_ensure_inputing cfg env now card s).2.2) :
    e = Event.tokenExchange cfg.client_id cfg.client_secret ∨
    e = Event.putData card.card_instance_id "2" "" := by
  simp only [_card_ensure_inputing] at he
  split at he
  · cases he
  · exact mem_put cfg env now card "2" "" s e he

theorem ensure_id (card : _ActiveCard) (s : ChannelState) :
    (_card_ensure_inputing cfg env now card s).1.card_instance_id =
      card.card_instance_id := by
  simp only [_card_ensure_inputing]
  split <;> rfl

theorem ensure_started (card : _ActiveCard) (s : ChannelState) :
    (_card_ensure_inputing cfg env now card s).1.inputing_started = true := by
  simp only [_card_ensure_inputing]
  split
  · assumption
  · rfl

theorem mem_stream (card : _ActiveCard) (content : String) (fin : Bool)
    (s : ChannelState) (e : Event)
    (he : e ∈ (_card_stream cfg env now card content fin s).2.2) :
    e = Event.tokenExchange cfg.client_id cfg.client_secret ∨
    e = Event.putData card.card_instance_id "2" "" ∨
    ∃ gd, e = Event.streaming card.card_instance_id gd content fin := by
  simp only [_card_stream] at he
  split at he
  · simp only [List.mem_append] at he
    rcases he with (he | he) | he
    · rcases mem_ensure cfg env now card s e he with h | h
      · exact Or.inl h
      · exact Or.inr (Or.inl h)
    · exact Or.inl (mem_gat cfg env now _ e he)
    · simp only [List.mem_singleton] at he
      subst he
      exact Or.inr (Or.inr ⟨_, by rw [ensure_id]⟩)
  · simp only [List.mem_append] at he
    rcases he with he | he
    · rcases mem_ensure cfg env now card s e he with h | h
      · exact Or.inl h
      · exact Or.inr (Or.inl h)
    · exact Or.inl (mem_gat cfg env now _ e he)

theorem stream_id (card : _ActiveCard) (content : String) (fin : Bool)
    (s : ChannelState) :
    (_card_stream cfg env now card content fin s).1.card_instance_id =
      card.card_instance_id := by
  simp only [_card_stream]
  split <;> simp [ensure_id]

theorem stream_started (card : _ActiveCard) (content : String) (fin : Bool)
    (s : ChannelState) :
    (_card_stream cfg env now card content fin s).1.inputing_started = true := by
  simp only [_card_stream]
  split <;> simp [ensure_started]

theorem mem_finish (card : _ActiveCard) (s : ChannelState) (e : Event)
    (he : e ∈ (_card_finish cfg env now card s).2.2) :
    e = Event.tokenExchange cfg.client_id cfg.client_secret ∨
    e = Event.putData card.card_instance_id "2" "" ∨
    e = Event.putData card.card_instance_id "3"
          (if card.accumulated_content = "" then "..." else card.accumulated_content) ∨
    ∃ gd, e = Event.streaming card.card_instance_id gd
          (if card.accumulated_content = "" then "..." else card.accumulated_content)
          true := by
  simp only [_card_finish, List.mem_append] at he
  rcases he with he | he
  · rcases mem_stream cfg env now card _ true s e he with h | h | ⟨gd, h⟩
    · exact Or.inl h
    · exact Or.inr (Or.inl h)
    · exact Or.inr (Or.inr (Or.inr ⟨gd, h⟩))
  · rcases mem_put cfg env now _ "3" _ _ e he with h | h
    · exact Or.inl h
    · rw [stream_id] at h
      exact Or.inr (Or.inr (Or.inl h))

theorem mem_create (msg : OutboundMessage) (s : ChannelState) (e : Event)
    (he : e ∈ (_card_create cfg env now msg s).2.2) :
    e = Event.tokenExchange cfg.client_id cfg.client_secret ∨
    ∃ k, e = Event.createCard ("card_" ++ env.uuid k) (_build_open_space_id msg)
          (msg.conversation_type == "2") := by
  simp only [_card_create] at he
  split at he
  · split at he <;>
    · simp only [List.mem_append] at he
      rcases he with he | he
      · exact Or.inl (mem_gat cfg env now s e he)
      · simp only [List.mem_singleton] at he
        exact Or.inr ⟨_, he⟩
  · exact Or.inl (mem_gat cfg env now s e he)

theorem create_some_id (msg : OutboundMessage) (s : ChannelState)
    (c : _ActiveCard) (hc : (_card_create cfg env now msg s).1 = some c) :
    ∃ k, c.card_instance_id = "card_" ++ env.uuid k := by
  simp only [_card_create] at hc
  split at hc
  · split at hc
    · simp only [Option.some_inj] at hc
      exact ⟨_, by rw [← hc]⟩
    · cases hc
  · cases hc

theorem mem_text (msg : OutboundMessage) (s : ChannelState) (e : Event)
    (he : e ∈ (_send_text cfg env now msg s).2) :
    e = Event.tokenExchange cfg.client_id cfg.client_secret ∨
    e = Event.sendTextCall msg.chat_id msg.content := by
  simp only [_send_text] at he
  split at he
  · cases he
  split at he
  · simp only [List.mem_append] at he
    rcases he with he | he
    · exact Or.inl (mem_gat cfg env now s e he)
    · simpa using Or.inr (by simpa using he)
  · exact Or.inl (mem_gat cfg env now s e he)

end Classify

/-! ### Announce counting -/

section Announce

variable (cfg : DingTalkConfig) (env : Env) (now : Int)

theorem gat_announce_zero (s : ChannelState) (cid : String) :
    (_get_access_token cfg env now s).2.2.countP (isAnnounce cid) = 0 := by
  refine List.countP_eq_zero.mpr ?_
  intro e he
  rw [mem_gat cfg env now s e he]
  simp [isAnnounce]

theorem put_announce_le_one (card : _ActiveCard) (fs content : String)
    (s : ChannelState) (cid : String) :
    ((_card_put_data cfg env now card fs content s).2.countP (isAnnounce cid)) ≤ 1 := by
  simp only [_card_put_data]
  split
  · rw [List.countP_append, gat_announce_zero]
    cases hp : isAnnounce cid (Event.putData card.card_instance_id fs content) <;>
      simp [List.countP_cons, hp]
  · rw [gat_announce_zero]
    exact Nat.zero_le 1

theorem mem_stream_started (card : _ActiveCard) (content : String) (fin : Bool)
    (s : ChannelState) (h : card.inputing_started = true) (e : Event)
    (he : e ∈ (_card_stream cfg env now card content fin s).2.2) :
    e = Event.tokenExchange cfg.client_id cfg.client_secret ∨
    ∃ gd, e = Event.streaming card.card_instance_id gd content fin := by
  simp only [_card_stream, _card_ensure_inputing, h, if_true] at he
  split at he
  · simp only [List.nil_append, List.mem_append] at he
    rcases he with he | he
    · exact Or.inl (mem_gat cfg env now _ e he)
    · simp only [List.mem_singleton] at he
      exact Or.inr ⟨_, he⟩
  · simp only [List.nil_append] at he
    exact Or.inl (mem_gat cfg env now _ e he)

theorem stream_started_announce_zero (card : _ActiveCard) (content : String)
    (fin : Bool) (s : ChannelState) (h : card.inputing_started = true)
    (cid : String) :
    ((_card_stream cfg env now card content fin s).2.2.countP (isAnnounce cid)) = 0 := by
  refine List.countP_eq_zero.mpr ?_
  intro e he
  rcases mem_stream_started cfg env now card content fin s h e he with h1 | ⟨gd, h1⟩ <;>
    rw [h1] <;> simp [isAnnounce]

theorem ensure_announce_le_one (card : _ActiveCard) (s : ChannelState)
    (cid : String) :
    ((_card_ensure_inputing cfg env now card s).2.2.countP (isAnnounce cid)) ≤ 1 := by
  simp only [_card_ensure_inputing]
  split
  · simp
  · exact put_announce_le_one cfg env now card "2" "" s cid

theorem stream_announce_eq (card : _ActiveCard) (content : String) (fin : Bool)
    (s : ChannelState) (cid : String) :
    ((_card_stream cfg env now card content fin s).2.2.countP (isAnnounce cid)) =
      ((_card_ensure_inputing cfg env now card s).2.2.countP (isAnnounce cid)) := by
  simp only [_card_stream, _card_ensure_inputing]
  split <;> split <;>
    simp [List.countP_append, gat_announce_zero, isAnnounce]

theorem stream_announce_le_one (card : _ActiveCard) (content : String)
    (fin : Bool) (s : ChannelState) (cid : String) :
    ((_card_stream cfg env now card content fin s).2.2.countP (isAnnounce cid)) ≤ 1 := by
  rw [stream_announce_eq]
  exact ensure_announce_le_one cfg env now card s cid

theorem streamMany_announce_zero (card : _ActiveCard)
    (reqs : List (String × Bool)) (s : ChannelState)
    (h : card.inputing_started = true) (cid : String) :
    ((streamMany cfg env now card reqs s).2.2.countP (isAnnounce cid)) = 0 := by
  induction reqs generalizing card s with
  | nil => simp [streamMany]
  | cons req rest ih =>
      obtain ⟨content, fin⟩ := req
      simp only [streamMany, List.countP_append]
      rw [stream_started_announce_zero cfg env now card content fin s h cid]
      rw [ih _ _ (stream_started cfg env now card content fin s)]

theorem streamMany_announce_le_one (card : _ActiveCard)
    (reqs : List (String × Bool)) (s : ChannelState) (cid : String) :
    ((streamMany cfg env now card reqs s).2.2.countP (isAnnounce cid)) ≤ 1 := by
  cases reqs with
  | nil => simp [streamMany]
  | cons req rest =>
      obtain ⟨content, fin⟩ := req
      simp only [streamMany, List.countP_append]
      have h1 := stream_announce_le_one cfg env now card content fin s cid
      have h2 := streamMany_announce_zero cfg env now
        ((_card_stream cfg env now card content fin s).1) rest
        ((_card_stream cfg env now card content fin s).2.1)
        (stream_started cfg env now card content fin s) cid
      omega

end Announce

/-! ### Registry algebra -/

theorem removeCard_removeCard (m : List (String × _ActiveCard)) (k : String) :
    removeCard (removeCard m k) k = removeCard m k := by
  simp [removeCard, List.filter_filter]

theorem setCard_setCard (m : List (String × _ActiveCard)) (k : String)
    (c c' : _ActiveCard) : setCard (setCard m k c) k c' = setCard m k c' := by
  simp [setCard, removeCard_cons, removeCard_removeCard]

/-! ### The finalize loop of `stop` -/

section StopLoop

variable (cfg : DingTalkConfig) (env : Env) (now : Int)

theorem stopLoop_attempt (cards : List (String × _ActiveCard)) :
    ∀ (s : ChannelState) (kc : String × _ActiveCard), kc ∈ cards →
      Event.finishAttempt kc.2.card_instance_id ∈ (stopLoop cfg env now cards s).2 := by
  induction cards with
  | nil => intro s kc h; cases h
  | cons kv rest ih =>
      intro s kc h
      obtain ⟨a, c0⟩ := kv
      rcases List.mem_cons.mp h with rfl | h
      · simp [stopLoop]
      · simp only [stopLoop]
        exact List.mem_cons_of_mem _ (List.mem_append_right _ (ih _ kc h))

theorem stopLoop_http (cards : List (String × _ActiveCard)) :
    ∀ s : ChannelState, (stopLoop cfg env now cards s).1.httpOpen = s.httpOpen := by
  induction cards with
  | nil => intro s; rfl
  | cons kv rest ih =>
      intro s
      obtain ⟨a, c0⟩ := kv
      simp only [stopLoop]
      split
      · rw [ih]
      · rw [ih, finish_http]

theorem stopLoop_tasks (cards : List (String × _ActiveCard)) :
    ∀ s : ChannelState,
      (stopLoop cfg env now cards s).1.background_tasks = s.background_tasks := by
  induction cards with
  | nil => intro s; rfl
  | cons kv rest ih =>
      intro s
      obtain ⟨a, c0⟩ := kv
      simp only [stopLoop]
      split
      · rw [ih]
      · rw [ih, finish_tasks]

end StopLoop

/-! ### Dispatcher-level decompositions -/

section Dispatcher

variable (cfg : DingTalkConfig) (env : Env) (now : Int)

set_option maxHeartbeats 1000000 in
theorem sendAiCard_create_fail (msg : OutboundMessage) (s : ChannelState)
    (hnone : lookupCard s.active_cards msg.chat_id = none)
    (hfail : (_card_create cfg env now msg s).1 = none) :
    _send_ai_card cfg env now msg s =
      ((_send_text cfg env now msg (_card_create cfg env now msg s).2.1).1,
       (_card_create cfg env now msg s).2.2 ++
         (_send_text cfg env now msg (_card_create cfg env now msg s).2.1).2) := by
  unfold _send_ai_card evictStale
  simp only [hnone]
  cases hp : msg.progress <;>
  · simp only [sendAiCardBody, hp, hfail]
    simp only [List.nil_append]

theorem sendAiCard_stale_split (msg : OutboundMessage) (s : ChannelState)
    (c : _ActiveCard) (hc : lookupCard s.active_cards msg.chat_id = some c)
    (hstale : now - c.created_at > 600) :
    _send_ai_card cfg env now msg s =
      ((_send_ai_card cfg env now msg
          { (_card_finish cfg env now c s).2.1 with
              active_cards :=
                removeCard (_card_finish cfg env now c s).2.1.active_cards
                  msg.chat_id }).1,
       (_card_finish cfg env now c s).2.2 ++
         (_send_ai_card cfg env now msg
            { (_card_finish cfg env now c s).2.1 with
                active_cards :=
                  removeCard (_card_finish cfg env now c s).2.1.active_cards
                    msg.chat_id }).2) := by
  unfold _send_ai_card evictStale
  simp only [hc]
  rw [if_pos hstale]
  simp only [lookup_removeCard_self]
  simp only [List.nil_append]

theorem body_progress_some (msg : OutboundMessage) (s : ChannelState)
    (c : _ActiveCard) (hv : tokenValid now s) (hh : s.httpOpen = true)
    (hp : msg.progress = true) :
    sendAiCardBody cfg env now msg (some c) s =
      ({ s with
           active_cards := setCard s.active_cards msg.chat_id
             { c with
                 accumulated_content := c.accumulated_content ++ msg.content ++ "\n\n",
                 inputing_started := true },
           ctr := s.ctr + 1 },
       (if c.inputing_started then []
        else [Event.putData c.card_instance_id "2" ""]) ++
       [Event.streaming c.card_instance_id (env.uuid s.ctr)
          (c.accumulated_content ++ msg.content ++ "\n\n") false]) := by
  simp only [sendAiCardBody, hp]
  rw [stream_ok cfg env now]
  · simp [setCard_setCard]
  · exact ⟨hv.1, hv.2⟩
  · exact hh

theorem body_final_some (msg : OutboundMessage) (s : ChannelState)
    (c : _ActiveCard) (hv : tokenValid now s) (hh : s.httpOpen = true)
    (hp : msg.progress = false) :
    sendAiCardBody cfg env now msg (some c) s =
      ({ s with
           active_cards := removeCard s.active_cards msg.chat_id,
           ctr := s.ctr + 1 },
       (if c.inputing_started then []
        else [Event.putData c.card_instance_id "2" ""]) ++
       [Event.streaming c.card_instance_id (env.uuid s.ctr)
          (if c.accumulated_content ++ msg.content = "" then "..."
           else c.accumulated_content ++ msg.content) true,
        Event.putData c.card_instance_id "3"
          (if c.accumulated_content ++ msg.content = "" then "..."
           else c.accumulated_content ++ msg.content)]) := by
  simp only [sendAiCardBody, hp]
  rw [finish_ok cfg env now
    ({ c with accumulated_content := c.accumulated_content ++ msg.content }) s hv hh]

theorem sendAiCard_progress_existing (msg : OutboundMessage) (s : ChannelState)
    (c : _ActiveCard) (hv : tokenValid now s) (hh : s.httpOpen = true)
    (hc : lookupCard s.active_cards msg.chat_id = some c)
    (hfr : ¬ now - c.created_at > 600) (hp : msg.progress = true) :
    _send_ai_card cfg env now msg s =
      ({ s with
           active_cards := setCard s.active_cards msg.chat_id
             { c with
                 accumulated_content := c.accumulated_content ++ msg.content ++ "\n\n",
                 inputing_started := true },
           ctr := s.ctr + 1 },
       (if c.inputing_started then []
        else [Event.putData c.card_instance_id "2" ""]) ++
       [Event.streaming c.card_instance_id (env.uuid s.ctr)
          (c.accumulated_content ++ msg.content ++ "\n\n") false]) := by
  unfold _send_ai_card evictStale
  simp only [hc]
  rw [if_neg hfr]
  simp only [body_progress_some cfg env now msg s c hv hh hp, List.nil_append]

theorem sendAiCard_final_existing (msg : OutboundMessage) (s : ChannelState)
    (c : _ActiveCard) (hv : tokenValid now s) (hh : s.httpOpen = true)
    (hc : lookupCard s.active_cards msg.chat_id = some c)
    (hfr : ¬ now - c.created_at > 600) (hp : msg.progress = false) :
    _send_ai_card cfg env now msg s =
      ({ s with
           active_cards := removeCard s.active_cards msg.chat_id,
           ctr := s.ctr + 1 },
       (if c.inputing_started then []
        else [Event.putData c.card_instance_id "2" ""]) ++
       [Event.streaming c.card_instance_id (env.uuid s.ctr)
          (if c.accumulated_content ++ msg.content = "" then "..."
           else c.accumulated_content ++ msg.content) true,
        Event.putData c.card_instance_id "3"
          (if c.accumulated_content ++ msg.content = "" then "..."
           else c.accumulated_content ++ msg.content)]) := by
  unfold _send_ai_card evictStale
  simp only [hc]
  rw [if_neg hfr]
  simp only [body_final_some cfg env now msg s c hv hh hp, List.nil_append]

theorem bodyNone_streaming (msg : OutboundMessage) (s : ChannelState)
    (tid g cnt : String) (fin : Bool)
    (he : Event.streaming tid g cnt fin ∈ (sendAiCardBody cfg env now msg none s).2) :
    ∃ k, tid = "card_" ++ env.uuid k := by
  cases hp : msg.progress <;> simp only [sendAiCardBody, hp] at he
  · rcases hcr : (_card_create cfg env now msg s).1 with _ | c <;>
      simp only [hcr] at he
    · rcases List.mem_append.mp he with h | h
      · rcases mem_create cfg env now msg s _ h with h1 | ⟨k, h1⟩ <;> cases h1
      · rcases mem_text cfg env now msg _ _ h with h1 | h1 <;> cases h1
    · rcases List.mem_append.mp he with h | h
      · rcases mem_create cfg env now msg s _ h with h1 | ⟨k, h1⟩ <;> cases h1
      · rcases mem_finish cfg env now _ _ _ h with h1 | h1 | h1 | ⟨gd, h1⟩
        · cases h1
        · cases h1
        · cases h1
        · injection h1 with h_tid _ _ _
          obtain ⟨k, hk⟩ := create_some_id cfg env now msg s c hcr
          exact ⟨k, by rw [h_tid]; simpa using hk⟩
  · rcases hcr : (_card_create cfg env now msg s).1 with _ | c <;>
      simp only [hcr] at he
    · rcases List.mem_append.mp he with h | h
      · rcases mem_create cfg env now msg s _ h with h1 | ⟨k, h1⟩ <;> cases h1
      · rcases mem_text cfg env now msg _ _ h with h1 | h1 <;> cases h1
    · rcases List.mem_append.mp he with h | h
      · rcases mem_create cfg env now msg s _ h with h1 | ⟨k, h1⟩ <;> cases h1
      · rcases mem_stream cfg env now _ _ _ _ _ h with h1 | h1 | ⟨gd, h1⟩
        · cases h1
        · cases h1
        · injection h1 with h_tid _ _ _
          obtain ⟨k, hk⟩ := create_some_id cfg env now msg s c hcr
          exact ⟨k, by rw [h_tid]; simpa using hk⟩

theorem sendAiCard_no_card (msg : OutboundMessage) (s : ChannelState)
    (hnone : lookupCard s.active_cards msg.chat_id = none) :
    _send_ai_card cfg env now msg s =
      ((sendAiCardBody cfg env now msg none s).1,
       (sendAiCardBody cfg env now msg none s).2) := by
  unfold _send_ai_card evictStale
  simp only [hnone]
  simp only [List.nil_append]

theorem onMessage_split (content sender : String) (chatId : Option String)
    (s : ChannelState) (old : _ActiveCard)
    (hc : lookupCard s.active_cards (resolvedChatId chatId sender) = some old) :
    _on_message cfg env now content sender chatId s =
      ((_card_finish cfg env now old
          { s with active_cards :=
              removeCard s.active_cards (resolvedChatId chatId sender) }).2.1,
       (_card_finish cfg env now old
          { s with active_cards :=
              removeCard s.active_cards (resolvedChatId chatId sender) }).2.2 ++
       [Event.handleMessage sender (resolvedChatId chatId sender) content]) := by
  unfold _on_message _handle_message
  simp only [hc]

end Dispatcher

/-! ### Concrete fixtures -/

/-- A card-mode configuration. -/
def cfg0 : DingTalkConfig := ⟨"ai_card", "appk", "apps"⟩

/-- An oracle where every remote call succeeds. -/
def env0 : Env :=
  ⟨fun _ => some ⟨some "tok", 7200⟩, fun _ => true, fun _ => true,
   fun _ => "g", fun _ => false⟩

/-- An oracle where card creation always fails with a non-200 response. -/
def envFail : Env :=
  ⟨fun _ => some ⟨some "tok", 7200⟩, fun _ => false, fun _ => true,
   fun _ => "g", fun _ => false⟩

/-- An oracle where the first `_card_finish` awaited inside `stop` raises. -/
def envExc : Env :=
  ⟨fun _ => some ⟨some "tok", 7200⟩, fun _ => true, fun _ => true,
   fun _ => "g", fun n => n == 0⟩

/-- A healthy state: open client, valid cached token, empty registry. -/
def s0 : ChannelState := ⟨true, true, some "tok0", 100, [], [3, 5], 0⟩

/-- A state whose HTTP client is closed and with no cached token. -/
def sNoHttp : ChannelState := ⟨true, false, none, 0, [], [], 0⟩

/-- A card with empty accumulated content, already announced. -/
def cEmpty : _ActiveCard := ⟨"cidX", "", true, 0⟩

/-- A fresh card that has not announced input yet. -/
def cFresh : _ActiveCard := ⟨"cidY", "", false, 0⟩

/-- A card created at time 0 with some accumulated content. -/
def cStale : _ActiveCard := ⟨"cidOld", "old stuff", true, 0⟩

/-- A state holding `cStale` for chat "chat1", token valid far into the future. -/
def sStale : ChannelState :=
  ⟨true, true, some "tok0", 100000, [("chat1", cStale)], [], 0⟩

/-- A state holding two cards and two background tasks, as left before `stop`. -/
def sStop : ChannelState :=
  ⟨true, true, some "tok0", 100,
   [("a", ⟨"cA", "x", true, 0⟩), ("b", ⟨"cB", "", false, 0⟩)], [7, 9], 0⟩

/-- Progress message "thinking..." for direct chat "chat1". -/
def msgProg1 : OutboundMessage := ⟨"chat1", "thinking...", true, "1", "", "sA"⟩

/-- Progress message "still thinking..." for the same chat. -/
def msgProg2 : OutboundMessage := ⟨"chat1", "still thinking...", true, "1", "", "sA"⟩

/-- Final message "done" for the same chat. -/
def msgFinal : OutboundMessage := ⟨"chat1", "done", false, "1", "", "sA"⟩

/-- A progress message for a group conversation. -/
def msgGroup : OutboundMessage := ⟨"conv2", "hello", true, "2", "conv2", ""⟩

/-! ### Claim theorems -/

/-- C1, counterexample: for a card whose accumulated content is empty,
`_card_finish` issues the finished-status update with the placeholder
`"..."`, not with the (empty) accumulated content, so the update's content
does not equal the accumulated content as the claim states. -/
theorem claim_C1_counterexample :
    (_card_finish cfg0 env0 0 cEmpty s0).2.2 =
      [Event.streaming "cidX" "g" "..." true, Event.putData "cidX" "3" "..."] ∧
    cEmpty.accumulated_content = "" ∧
    Event.putData "cidX" "3" cEmpty.accumulated_content ∉
      (_card_finish cfg0 env0 0 cEmpty s0).2.2 := by
  decide

/-- C1 (amended): when an access token is cached, unexpired and the HTTP
client is open, `_card_finish` issues exactly one streaming call with
`isFinalize = true` and then exactly one card-data update with flowStatus
`"3"`, both carrying the accumulated content when it is non-empty and the
non-empty placeholder `"..."` when it is empty (possibly preceded by the
pending announce); the update is issued regardless of the outcome of the
streaming call. -/
theorem claim_C1_finalize_calls (cfg : DingTalkConfig) (env : Env) (now : Int)
    (card : _ActiveCard) (s : ChannelState)
    (hv : tokenValid now s) (hh : s.httpOpen = true) :
    ((_card_finish cfg env now card s).2.2 =
      (if card.inputing_started then []
       else [Event.putData card.card_instance_id "2" ""]) ++
      [Event.streaming card.card_instance_id (env.uuid s.ctr)
         (if card.accumulated_content = "" then "..." else card.accumulated_content)
         true,
       Event.putData card.card_instance_id "3"
         (if card.accumulated_content = "" then "..." else card.accumulated_content)]) ∧
    (if card.accumulated_content = "" then "..." else card.accumulated_content) ≠ "" ∧
    ∀ g, _card_finish cfg { env with callOutcome := g } now card s =
          _card_finish cfg env now card s := by
  refine ⟨?_, ?_, ?_⟩
  · rw [finish_ok cfg env now card s hv hh]
  · split
    · decide
    · assumption
  · intro g
    exact finish_co cfg env now g card s

/-- C1, witness: the amended theorem evaluated on a card with empty
accumulated content in a healthy state. -/
theorem claim_C1_witness :
    tokenValid 0 s0 ∧ s0.httpOpen = true ∧
    (_card_finish cfg0 env0 0 cEmpty s0).2.2 =
      (if cEmpty.inputing_started then []
       else [Event.putData cEmpty.card_instance_id "2" ""]) ++
      [Event.streaming cEmpty.card_instance_id (env0.uuid s0.ctr)
         (if cEmpty.accumulated_content = "" then "..." else cEmpty.accumulated_content)
         true,
       Event.putData cEmpty.card_instance_id "3"
         (if cEmpty.accumulated_content = "" then "..." else cEmpty.accumulated_content)] :=
  ⟨⟨by decide, by decide⟩, by decide,
   (claim_C1_finalize_calls cfg0 env0 0 cEmpty s0 ⟨by decide, by decide⟩ (by decide)).1⟩

/-- C5: the input-in-progress announce is issued at most once per card:
once `inputing_started` is true, `_card_ensure_inputing` performs no
remote call and leaves the state untouched; after every `_card_stream`
the flag is true; and any sequence of `_card_stream` invocations on one
card issues at most one announce for that card. -/
theorem claim_C5_announce_once (cfg : DingTalkConfig) (env : Env) (now : Int) :
    (∀ card s, card.inputing_started = true →
       _card_ensure_inputing cfg env now card s = (card, s, [])) ∧
    (∀ card content fin s,
       (_card_stream cfg env now card content fin s).1.inputing_started = true) ∧
    (∀ card reqs s,
       ((streamMany cfg env now card reqs s).2.2.countP
          (isAnnounce card.card_instance_id)) ≤ 1) := by
  refine ⟨?_, ?_, ?_⟩
  · intro card s h
    unfold _card_ensure_inputing
    rw [if_pos h]
  · intro card content fin s
    exact stream_started cfg env now card content fin s
  · intro card reqs s
    exact streamMany_announce_le_one cfg env now card reqs s _

/-- C5, witness: the already-announced card `cEmpty` makes
`_card_ensure_inputing` a no-op. -/
theorem claim_C5_witness :
    _card_ensure_inputing cfg0 env0 0 cEmpty s0 = (cEmpty, s0, []) :=
  (claim_C5_announce_once cfg0 env0 0).1 cEmpty s0 (by decide)

/-- C7: `_get_access_token` returns the cached token with no remote call
iff a truthy token is cached and `now` is before the stored expiry; a
successful refresh stores the token with expiry `now + expireIn - 60` and
returns it; a failed refresh (closed client or transport/HTTP failure)
returns `none` and leaves the cached token and expiry unchanged; and a
token is never served from the cache at or past its stored expiry. -/
theorem claim_C7_token_cache (cfg : DingTalkConfig) (env : Env) (now : Int)
    (s : ChannelState) :
    ((∃ tok, (_get_access_token cfg env now s).1 = some tok ∧
        s.access_token = some tok ∧
        (_get_access_token cfg env now s).2.2 = []) ↔
      (strTruthy s.access_token = true ∧ now < s.token_expiry)) ∧
    (∀ t r, ¬ (strTruthy s.access_token = true ∧ now < s.token_expiry) →
      s.httpOpen = true → env.tokenResp s.ctr = some r → r.accessToken = some t →
      _get_access_token cfg env now s =
        (some t,
         { s with access_token := some t,
                  token_expiry := now + r.expireIn - 60, ctr := s.ctr + 1 },
         [Event.tokenExchange cfg.client_id cfg.client_secret])) ∧
    (¬ (strTruthy s.access_token = true ∧ now < s.token_expiry) →
      (s.httpOpen = false ∨ env.tokenResp s.ctr = none) →
      (_get_access_token cfg env now s).1 = none ∧
      (_get_access_token cfg env now s).2.1.access_token = s.access_token ∧
      (_get_access_token cfg env now s).2.1.token_expiry = s.token_expiry) ∧
    (∀ tok, (_get_access_token cfg env now s).2.2 = [] →
      (_get_access_token cfg env now s).1 = some tok → now < s.token_expiry) := by
  refine ⟨⟨?_, ?_⟩, ?_, ?_, ?_⟩
  · rintro ⟨tok, h1, _, h3⟩
    by_contra hcv
    unfold _get_access_token at h1 h3
    rw [if_neg hcv] at h1 h3
    cases hh : s.httpOpen with
    | false => simp [hh] at h1
    | true =>
        simp [hh] at h3
        rcases htr : env.tokenResp s.ctr with _ | r <;> simp [htr] at h3
  · intro hcv
    rcases hx : s.access_token with _ | t
    · rw [hx] at hcv
      simp [strTruthy] at hcv
    · refine ⟨t, ?_, rfl, ?_⟩
      · rw [gat_cached cfg env now s hcv]
        exact hx
      · rw [gat_cached cfg env now s hcv]
  · intro t r hcv hh htr hat
    unfold _get_access_token
    rw [if_neg hcv]
    simp [hh, htr, hat]
  · intro hcv hor
    unfold _get_access_token
    rw [if_neg hcv]
    rcases hor with hh | htr
    · simp [hh]
    · cases hh : s.httpOpen
      · simp [hh]
      · simp [hh, htr]
  · intro tok h3 h1
    by_cases hcv : strTruthy s.access_token = true ∧ now < s.token_expiry
    · exact hcv.2
    · exfalso
      unfold _get_access_token at h1 h3
      rw [if_neg hcv] at h1 h3
      cases hh : s.httpOpen with
      | false => simp [hh] at h1
      | true =>
          simp [hh] at h3
          rcases htr : env.tokenResp s.ctr with _ | r <;> simp [htr] at h3

/-- C7, witness: with the cached token expired at time 200, the refresh
succeeds and stores the new token with expiry `200 + 7200 - 60`. -/
theorem claim_C7_witness :
    _get_access_token cfg0 env0 200 s0 =
      (some "tok",
       { s0 with access_token := some "tok",
                 token_expiry := 200 + 7200 - 60, ctr := s0.ctr + 1 },
       [Event.tokenExchange "appk" "apps"]) :=
  (claim_C7_token_cache cfg0 env0 200 s0).2.1 "tok" ⟨some "tok", 7200⟩
    (by decide) (by decide) (by decide) (by decide)

/-- C9, counterexample: with no client and no token, a first
`_card_stream` on an unannounced card issues no announce call at all
(skipped for lack of a token) and still sets `inputing_started`; the next
`_card_stream`, performed with a usable token, does not re-attempt the
announce — it only streams. -/
theorem claim_C9_counterexample :
    (_card_stream cfg0 env0 0 cFresh "c1" false sNoHttp).2.2 = [] ∧
    (_card_stream cfg0 env0 0 cFresh "c1" false sNoHttp).1.inputing_started = true ∧
    (_card_stream cfg0 env0 0
        (_card_stream cfg0 env0 0 cFresh "c1" false sNoHttp).1 "c2" false s0).2.2 =
      [Event.streaming "cidY" "g" "c2" false] := by
  decide

/-- C9 (amended): the announce is attempted at most once per card: after
any `_card_stream` invocation the `inputing_started` flag is true even
when the underlying announce call failed or was skipped, and a subsequent
`_card_stream` never re-issues the announce for that card. -/
theorem claim_C9_announce_not_retried (cfg : DingTalkConfig) (env env' : Env)
    (now now' : Int) (card : _ActiveCard) (content content' : String)
    (fin fin' : Bool) (s s' : ChannelState) :
    (_card_stream cfg env now card content fin s).1.inputing_started = true ∧
    ∀ e ∈ (_card_stream cfg env' now'
        (_card_stream cfg env now card content fin s).1 content' fin' s').2.2,
      isAnnounce card.card_instance_id e = false := by
  refine ⟨stream_started cfg env now card content fin s, ?_⟩
  intro e he
  rcases mem_stream_started cfg env' now' _ content' fin' s'
      (stream_started cfg env now card content fin s) e he with h1 | ⟨gd, h1⟩ <;>
    subst h1 <;> rfl

/-- C2: in card mode, a progress message on an existing fresh card appends
its content plus two newlines to the accumulated content, registers the
updated card, and streams the full buffer non-finally; a final message on
an existing fresh card appends its content with no separator, finalizes,
and removes the card; and in the concrete three-message scenario the
finalize stream and the finished-status update carry exactly
"thinking...\n\nstill thinking...\n\ndone", after which the registry no
longer holds a card for the key. -/
theorem claim_C2_card_accumulation :
    (∀ (cfg : DingTalkConfig) (env : Env) (now : Int) (msg : OutboundMessage)
       (s : ChannelState) (c : _ActiveCard),
       tokenValid now s → s.httpOpen = true →
       lookupCard s.active_cards msg.chat_id = some c →
       ¬ now - c.created_at > 600 → msg.progress = true →
       lookupCard (_send_ai_card cfg env now msg s).1.active_cards msg.chat_id =
         some { c with
                  accumulated_content := c.accumulated_content ++ msg.content ++ "\n\n",
                  inputing_started := true } ∧
       (_send_ai_card cfg env now msg s).2 =
         (if c.inputing_started then []
          else [Event.putData c.card_instance_id "2" ""]) ++
         [Event.streaming c.card_instance_id (env.uuid s.ctr)
            (c.accumulated_content ++ msg.content ++ "\n\n") false]) ∧
    (∀ (cfg : DingTalkConfig) (env : Env) (now : Int) (msg : OutboundMessage)
       (s : ChannelState) (c : _ActiveCard),
       tokenValid now s → s.httpOpen = true →
       lookupCard s.active_cards msg.chat_id = some c →
       ¬ now - c.created_at > 600 → msg.progress = false →
       (_send_ai_card cfg env now msg s).2 =
         (if c.inputing_started then []
          else [Event.putData c.card_instance_id "2" ""]) ++
         [Event.streaming c.card_instance_id (env.uuid s.ctr)
            (if c.accumulated_content ++ msg.content = "" then "..."
             else c.accumulated_content ++ msg.content) true,
          Event.putData c.card_instance_id "3"
            (if c.accumulated_content ++ msg.content = "" then "..."
             else c.accumulated_content ++ msg.content)] ∧
       lookupCard (_send_ai_card cfg env now msg s).1.active_cards msg.chat_id =
         none) ∧
    (Event.streaming "card_g" "g" "thinking...\n\nstill thinking...\n\ndone" true ∈
       (_send_ai_card cfg0 env0 2 msgFinal
         (_send_ai_card cfg0 env0 1 msgProg2
           (_send_ai_card cfg0 env0 0 msgProg1 s0).1).1).2 ∧
     Event.putData "card_g" "3" "thinking...\n\nstill thinking...\n\ndone" ∈
       (_send_ai_card cfg0 env0 2 msgFinal
         (_send_ai_card cfg0 env0 1 msgProg2
           (_send_ai_card cfg0 env0 0 msgProg1 s0).1).1).2 ∧
     lookupCard
       (_send_ai_card cfg0 env0 2 msgFinal
         (_send_ai_card cfg0 env0 1 msgProg2
           (_send_ai_card cfg0 env0 0 msgProg1 s0).1).1).1.active_cards "chat1" =
       none) := by
  refine ⟨?_, ?_, by decide⟩
  · intro cfg env now msg s c hv hh hc hfr hp
    constructor
    · rw [sendAiCard_progress_existing cfg env now msg s c hv hh hc hfr hp]
      simp [lookup_setCard_self]
    · rw [sendAiCard_progress_existing cfg env now msg s c hv hh hc hfr hp]
  · intro cfg env now msg s c hv hh hc hfr hp
    constructor
    · rw [sendAiCard_final_existing cfg env now msg s c hv hh hc hfr hp]
    · rw [sendAiCard_final_existing cfg env now msg s c hv hh hc hfr hp]
      simp [lookup_removeCard_self]

/-- C2, witness: the progress part evaluated on the state holding the card
`cStale` at a time well inside the TTL. -/
theorem claim_C2_witness :
    lookupCard (_send_ai_card cfg0 env0 1 msgProg1 sStale).1.active_cards "chat1" =
      some { cStale with
               accumulated_content := cStale.accumulated_content ++ "thinking..." ++ "\n\n",
               inputing_started := true } ∧
    (_send_ai_card cfg0 env0 1 msgProg1 sStale).2 =
      (if cStale.inputing_started then []
       else [Event.putData cStale.card_instance_id "2" ""]) ++
      [Event.streaming cStale.card_instance_id (env0.uuid sStale.ctr)
         (cStale.accumulated_content ++ "thinking..." ++ "\n\n") false] :=
  claim_C2_card_accumulation.1 cfg0 env0 1 msgProg1 sStale cStale
    ⟨by decide, by decide⟩ (by decide) (by decide) (by decide) (by decide)

/-- C3: a card older than the 600s TTL is finalized and dropped from the
registry before the message is processed: the run equals the stale card's
finalize followed by a run from a registry without that key, the key is
absent from the intermediate registry, and (as long as fresh track ids
never collide with the old card's) no streaming call of the remainder
targets the evicted card. -/
theorem claim_C3_ttl_eviction (cfg : DingTalkConfig) (env : Env) (now : Int)
    (msg : OutboundMessage) (s : ChannelState) (c : _ActiveCard)
    (hc : lookupCard s.active_cards msg.chat_id = some c)
    (hstale : now - c.created_at > 600)
    (hfresh : ∀ n, ("card_" ++ env.uuid n) ≠ c.card_instance_id) :
    (_send_ai_card cfg env now msg s =
      ((_send_ai_card cfg env now msg
          { (_card_finish cfg env now c s).2.1 with
              active_cards :=
                removeCard (_card_finish cfg env now c s).2.1.active_cards
                  msg.chat_id }).1,
       (_card_finish cfg env now c s).2.2 ++
         (_send_ai_card cfg env now msg
            { (_card_finish cfg env now c s).2.1 with
                active_cards :=
                  removeCard (_card_finish cfg env now c s).2.1.active_cards
                    msg.chat_id }).2)) ∧
    lookupCard
      ({ (_card_finish cfg env now c s).2.1 with
           active_cards :=
             removeCard (_card_finish cfg env now c s).2.1.active_cards
               msg.chat_id }).active_cards msg.chat_id = none ∧
    ∀ gd cnt fin, Event.streaming c.card_instance_id gd cnt fin ∉
      (_send_ai_card cfg env now msg
         { (_card_finish cfg env now c s).2.1 with
             active_cards :=
               removeCard (_card_finish cfg env now c s).2.1.active_cards
                 msg.chat_id }).2 := by
  refine ⟨sendAiCard_stale_split cfg env now msg s c hc hstale, ?_, ?_⟩
  · simp [lookup_removeCard_self]
  · intro gd cnt fin he
    rw [sendAiCard_no_card cfg env now msg _ (by simp [lookup_removeCard_self])] at he
    obtain ⟨k, hk⟩ := bodyNone_streaming cfg env now msg _ _ _ _ _ he
    exact hfresh k hk.symm

/-- C3, witness: at time 700 the card created at time 0 is stale; the run
splits into its finalize followed by a fresh run on the evicted registry,
and the old card is never streamed to again. -/
theorem claim_C3_witness :
    _send_ai_card cfg0 env0 700 msgProg1 sStale =
      ((_send_ai_card cfg0 env0 700 msgProg1
          { (_card_finish cfg0 env0 700 cStale sStale).2.1 with
              active_cards :=
                removeCard (_card_finish cfg0 env0 700 cStale sStale).2.1.active_cards
                  "chat1" }).1,
       (_card_finish cfg0 env0 700 cStale sStale).2.2 ++
         (_send_ai_card cfg0 env0 700 msgProg1
            { (_card_finish cfg0 env0 700 cStale sStale).2.1 with
                active_cards :=
                  removeCard (_card_finish cfg0 env0 700 cStale sStale).2.1.active_cards
                    "chat1" }).2) :=
  (claim_C3_ttl_eviction cfg0 env0 700 msgProg1 sStale cStale
    (by decide) (by decide)
    (fun _ => by show ("card_" ++ "g" : String) ≠ "cidOld"; decide)).1

/-- C4: when an inbound message arrives for a chat key holding an open
card, `_on_message` removes the card from the registry and finalizes it,
and only afterwards emits the forward to the bus; the registry no longer
holds the key, and (with a usable token) the finalize segment contains the
streaming call carrying the card's accumulated content. -/
theorem claim_C4_interrupt_before_forward (cfg : DingTalkConfig) (env : Env)
    (now : Int) (content sender : String) (chatId : Option String)
    (s : ChannelState) (old : _ActiveCard)
    (hc : lookupCard s.active_cards (resolvedChatId chatId sender) = some old) :
    (_on_message cfg env now content sender chatId s =
      ((_card_finish cfg env now old
          { s with active_cards :=
              removeCard s.active_cards (resolvedChatId chatId sender) }).2.1,
       (_card_finish cfg env now old
          { s with active_cards :=
              removeCard s.active_cards (resolvedChatId chatId sender) }).2.2 ++
       [Event.handleMessage sender (resolvedChatId chatId sender) content])) ∧
    lookupCard (_on_message cfg env now content sender chatId s).1.active_cards
      (resolvedChatId chatId sender) = none ∧
    (tokenValid now s → s.httpOpen = true →
      Event.streaming old.card_instance_id (env.uuid s.ctr)
        (if old.accumulated_content = "" then "..." else old.accumulated_content)
        true ∈ (_on_message cfg env now content sender chatId s).2) := by
  have hsplit := onMessage_split cfg env now content sender chatId s old hc
  refine ⟨hsplit, ?_, ?_⟩
  · rw [hsplit]
    simp [finish_cards, lookup_removeCard_self]
  · intro hv hh
    rw [hsplit]
    rw [finish_ok cfg env now old
      { s with active_cards := removeCard s.active_cards (resolvedChatId chatId sender) }
      ⟨hv.1, hv.2⟩ hh]
    simp

/-- C4, witness: an inbound message for "chat1" with the card `cStale`
open finalizes it before forwarding, and the registry is empty for the
key afterwards. -/
theorem claim_C4_witness :
    lookupCard (_on_message cfg0 env0 0 "hi" "sA" (some "chat1") sStale).1.active_cards
      "chat1" = none :=
  (claim_C4_interrupt_before_forward cfg0 env0 0 "hi" "sA" (some "chat1") sStale
    cStale (by decide)).2.1

/-- C6: in card mode with no existing card, when `_card_create` yields no
card (missing token, non-200 response or transport exception), the
dispatcher falls back to the plain-text path and registers nothing; and
the outcomes of announce, stream, finalize and text-send calls never
influence the dispatcher's behaviour. -/
theorem claim_C6_creation_fallback (cfg : DingTalkConfig) (env : Env) (now : Int)
    (msg : OutboundMessage) (s : ChannelState)
    (hnone : lookupCard s.active_cards msg.chat_id = none)
    (hfail : (_card_create cfg env now msg s).1 = none) :
    (_send_ai_card cfg env now msg s =
      ((_send_text cfg env now msg (_card_create cfg env now msg s).2.1).1,
       (_card_create cfg env now msg s).2.2 ++
         (_send_text cfg env now msg (_card_create cfg env now msg s).2.1).2)) ∧
    (_send_ai_card cfg env now msg s).1.active_cards = s.active_cards ∧
    ∀ g, _send_ai_card cfg { env with callOutcome := g } now msg s =
          _send_ai_card cfg env now msg s := by
  refine ⟨sendAiCard_create_fail cfg env now msg s hnone hfail, ?_, ?_⟩
  · rw [sendAiCard_create_fail cfg env now msg s hnone hfail]
    simp only [text_cards, create_cards]
  · intro g
    exact sendAiCard_co cfg env now g msg s

/-- C6, witness: with creation failing by non-200 response, the registry
is unchanged (still empty) after the fallback. -/
theorem claim_C6_witness :
    (_send_ai_card cfg0 envFail 0 msgProg1 s0).1.active_cards = s0.active_cards :=
  (claim_C6_creation_fallback cfg0 envFail 0 msgProg1 s0 (by decide) (by decide)).2.1

/-- C8: `stop` records a finalize attempt for every card then in the
registry (also under oracles that raise exceptions during some attempts),
empties the registry, closes and releases the HTTP client (emitting the
close when it was open), and cancels and clears every background task. -/
theorem claim_C8_stop_cleanup (cfg : DingTalkConfig) (env : Env) (now : Int)
    (s : ChannelState) :
    (∀ kc, kc ∈ s.active_cards →
       Event.finishAttempt kc.2.card_instance_id ∈ (stop cfg env now s).2) ∧
    (stop cfg env now s).1.active_cards = [] ∧
    (stop cfg env now s).1.httpOpen = false ∧
    (s.httpOpen = true → Event.closeHttp ∈ (stop cfg env now s).2) ∧
    (stop cfg env now s).1.background_tasks = [] ∧
    (∀ t, t ∈ s.background_tasks → Event.cancelTask t ∈ (stop cfg env now s).2) := by
  refine ⟨?_, ?_, ?_, ?_, ?_, ?_⟩
  · intro kc h
    simp only [stop]
    exact List.mem_append_left _ (List.mem_append_left _
      (stopLoop_attempt cfg env now s.active_cards _ kc h))
  · simp only [stop]
    split <;> rfl
  · simp only [stop]
    split
    · rfl
    · next h => simpa using h
  · intro hh
    simp only [stop]
    have hcond : ({ (stopLoop cfg env now s.active_cards
        { s with running := false }).1 with
          active_cards := ([] : List (String × _ActiveCard)) }).httpOpen = true := by
      simpa [stopLoop_http] using hh
    rw [if_pos hcond]
    simp
  · simp only [stop]
  · intro t ht
    simp only [stop]
    refine List.mem_append_right _ ?_
    rw [List.mem_map]
    refine ⟨t, ?_, rfl⟩
    split <;> simpa [stopLoop_tasks] using ht

/-- C8, witness: stopping with two open cards, of which the first
finalize raises, still attempts both cards, and clears the registry. -/
theorem claim_C8_witness :
    Event.finishAttempt "cB" ∈ (stop cfg0 envExc 0 sStop).2 ∧
    (stop cfg0 envExc 0 sStop).1.active_cards = [] ∧
    Event.cancelTask 9 ∈ (stop cfg0 envExc 0 sStop).2 :=
  ⟨(claim_C8_stop_cleanup cfg0 envExc 0 sStop).1 ("b", ⟨"cB", "", false, 0⟩) (by decide),
   (claim_C8_stop_cleanup cfg0 envExc 0 sStop).2.1,
   (claim_C8_stop_cleanup cfg0 envExc 0 sStop).2.2.2.2.2 9 (by decide)⟩

/-- C10: the plain-text path skips group conversations entirely (no HTTP
call, state untouched), so when card creation fails for a group
conversation the fallback delivers nothing: no `batchSend` call appears
anywhere in the dispatch. -/
theorem claim_C10_group_fallback (cfg : DingTalkConfig) (env : Env) (now : Int)
    (msg : OutboundMessage) (s : ChannelState)
    (hg : msg.conversation_type = "2")
    (hnone : lookupCard s.active_cards msg.chat_id = none)
    (hfail : (_card_create cfg env now msg s).1 = none) :
    (∀ s' : ChannelState, _send_text cfg env now msg s' = (s', [])) ∧
    ∀ u c, Event.sendTextCall u c ∉ (_send_ai_card cfg env now msg s).2 := by
  have htext : ∀ s' : ChannelState, _send_text cfg env now msg s' = (s', []) := by
    intro s'
    unfold _send_text
    rw [if_pos hg]
  refine ⟨htext, ?_⟩
  intro u c he
  rw [sendAiCard_create_fail cfg env now msg s hnone hfail] at he
  simp only [htext, List.append_nil] at he
  rcases mem_create cfg env now msg s _ he with h | ⟨k, h⟩ <;> cases h

/-- C10, witness: a group progress message with failing creation issues no
text send, and the plain-text path is a no-op for the group message. -/
theorem claim_C10_witness :
    _send_text cfg0 envFail 0 msgGroup s0 = (s0, []) ∧
    Event.sendTextCall "conv2" "hello" ∉ (_send_ai_card cfg0 envFail 0 msgGroup s0).2 :=
  ⟨(claim_C10_group_fallback cfg0 envFail 0 msgGroup s0 (by decide) (by decide)
      (by decide)).1 s0,
   (claim_C10_group_fallback cfg0 envFail 0 msgGroup s0 (by decide) (by decide)
      (by decide)).2 "conv2" "hello"⟩

/-- C9, witness: the amended theorem evaluated on the counterexample's
scenario: the flag is set by the failed first stream and the second
stream's single event is not an announce. -/
theorem claim_C9_witness :
    (_card_stream cfg0 env0 0 cFresh "c1" false sNoHttp).1.inputing_started = true ∧
    isAnnounce cFresh.card_instance_id (Event.streaming "cidY" "g" "c2" false) = false :=
  ⟨(claim_C9_announce_not_retried cfg0 env0 env0 0 0 cFresh "c1" "c2"
      false false sNoHttp s0).1,
   (claim_C9_announce_not_retried cfg0 env0 env0 0 0 cFresh "c1" "c2"
      false false sNoHttp s0).2 (Event.streaming "cidY" "g" "c2" false) (by decide)⟩

end DingTalk
